import Mathlib

deriving instance DecidableEq for Except

/-!
Verification of the agent_kg knowledge-graph server.

The development shallowly embeds the core of the repository:

* the read-only SQL classifier `PostgresDB.is_read_only_query`
  (src/agent_kg/server.py), modelled over `List Char` with helper
  functions mirroring the Python string primitives used by the source
  (`str.split('\n')`, `str.strip`, `str.startswith`, `' '.join`,
  `str.upper`, substring containment via `in`);
* the connection-resilient query executor `PostgresDB.execute_query`
  together with `PostgresDB._init_database` (src/agent_kg/server.py),
  modelled as a state machine over an abstract backend store;
* the graph-repository operations (`delete_entity`, `add_relationship`,
  `update_properties`, `get_properties`) from src/agent_kg/server.py,
  kg/tools/relationship.py, kg/tools/property.py and
  src/agent_kg/postgres.py, modelled as pure functions on a `KG` state
  whose fields are the rows of the `entities`, `relationships` and
  `properties` tables.  Each SQL statement is translated into its effect
  on the table contents; `ORDER BY` clauses and timestamp columns are
  not modelled (no claim below depends on them).

ASCII note: Python's `str.upper` and `str.strip` are modelled for the
ASCII character range, which covers the SQL keyword surface the
classifier inspects.
-/

namespace AgentKG

/-- Characters of a Python string. -/
abbrev Chars := List Char

/-- The whitespace characters removed by Python's `str.strip()`
(ASCII subset). -/
def isPySpace (c : Char) : Bool :=
  c = ' ' || c = '\t' || c = '\n' || c = '\r' || c = '\x0b' || c = '\x0c'

/-- Python `str.split('\n')`: split at every newline, keeping empty
pieces. -/
def splitNL : Chars → List Chars
  | [] => [[]]
  | c :: cs =>
    if c = '\n' then [] :: splitNL cs
    else
      match splitNL cs with
      | [] => [[c]]
      | l :: ls => (c :: l) :: ls

/-- Python `str.strip()` (ASCII whitespace). -/
def pyStrip (s : Chars) : Chars :=
  ((s.dropWhile isPySpace).reverse.dropWhile isPySpace).reverse

/-- Python `str.upper()` (ASCII). -/
def pyUpper (s : Chars) : Chars := s.map Char.toUpper

/-- Python `' '.join(lines)`. -/
def joinSpace : List Chars → Chars
  | [] => []
  | [l] => l
  | l :: l' :: ls => l ++ ' ' :: joinSpace (l' :: ls)

/-- Python `needle in hay`: contiguous-substring containment. -/
def containsSub (needle : Chars) : Chars → Bool
  | [] => needle.isEmpty
  | c :: t => needle.isPrefixOf (c :: t) || containsSub needle t

/-- The write-operation keywords of `PostgresDB.is_read_only_query`. -/
def writeOperations : List Chars :=
  ["INSERT".toList, "UPDATE".toList, "DELETE".toList, "DROP".toList,
   "CREATE".toList, "ALTER".toList, "TRUNCATE".toList]

/-- The normalisation pipeline of `PostgresDB.is_read_only_query`
(src/agent_kg/server.py): drop lines whose stripped form starts with
`--`, join the rest with spaces, strip, upper-case. -/
def cleanQuery (q : Chars) : Chars :=
  pyUpper (pyStrip (joinSpace
    ((splitNL q).filter (fun l => !("--".toList.isPrefixOf (pyStrip l))))))

/-- `PostgresDB.is_read_only_query` (src/agent_kg/server.py): the
normalised text must start with `SELECT` and contain none of the write
keywords as a substring. -/
def is_read_only_query (q : Chars) : Bool :=
  ("SELECT".toList.isPrefixOf (cleanQuery q)) &&
    !(writeOperations.any (fun op => containsSub op (cleanQuery q)))

/-- The spec's characterisation of the classifier: after removing
comment lines and normalising case and whitespace, the text starts with
`SELECT` and contains none of the write keywords anywhere. -/
def ReadOnlyPerSpec (q : Chars) : Prop :=
  "SELECT".toList.isPrefixOf (cleanQuery q) = true ∧
    ∀ op ∈ writeOperations, containsSub op (cleanQuery q) = false

/-- A character that can be part of a SQL identifier or keyword
token. -/
def tokenChar (c : Char) : Bool := c.isAlphanum || c = '_'

/-- Accumulator-based splitting of a text into its maximal runs of
token characters (used to state what "contains a keyword as a bare
token" means). -/
def tokensGo : Chars → Chars → List Chars
  | [], acc => if acc.isEmpty then [] else [acc.reverse]
  | c :: cs, acc =>
    if tokenChar c then tokensGo cs (c :: acc)
    else if acc.isEmpty then tokensGo cs []
    else acc.reverse :: tokensGo cs []

/-- The bare tokens of a text. -/
def pyTokens (s : Chars) : List Chars := tokensGo s []

/-- `op` occurs in `s` as a bare token (a maximal identifier run),
rather than merely as a substring of a longer identifier. -/
def containsBareToken (s op : Chars) : Bool := (pyTokens s).contains op

/-! ## The graph-repository state

One record per row of the `entities`, `relationships` and `properties`
tables.  Timestamp columns (`created_at`, `last_updated`) are not
modelled; no claim below depends on them. -/

/-- A row of the `entities` table. -/
structure EntityRow where
  id : Nat
  type : String
  name : String
deriving DecidableEq

/-- A row of the `relationships` table. -/
structure RelationshipRow where
  id : Nat
  source_id : Nat
  target_id : Nat
  type : String
deriving DecidableEq

/-- A row of the `properties` table.  Exactly one of `entity_id` and
`relationship_id` is meant to be set (spec invariant, not enforced by
the table). -/
structure PropertyRow where
  id : Nat
  entity_id : Option Nat
  relationship_id : Option Nat
  key : String
  value : String
  value_type : String
deriving DecidableEq

/-- The knowledge-graph store: contents of the three tables. -/
structure KG where
  entities : List EntityRow
  relationships : List RelationshipRow
  properties : List PropertyRow
deriving DecidableEq

/-- `PostgresDB.delete_entity` (src/agent_kg/server.py): three DELETE
statements — the entity's properties, the relationships touching the
entity (as source or target), then the entity row — followed by a
`SELECT EXISTS` verification query whose negation is returned. -/
def delete_entity (kg : KG) (eid : Nat) : Bool × KG :=
  let props := kg.properties.filter (fun p => !(p.entity_id == some eid))
  let rels := kg.relationships.filter
    (fun r => !(r.source_id == eid || r.target_id == eid))
  let ents := kg.entities.filter (fun e => !(e.id == eid))
  let kg' : KG := ⟨ents, rels, props⟩
  (!(kg'.entities.any (fun e => e.id == eid)), kg')

/-- `PostgresDB.get_entity` looked up by id (src/agent_kg/server.py):
`SELECT ... FROM entities WHERE id = %s`, returning `None` when no row
matches and the first row otherwise. -/
def get_entity (kg : KG) (eid : Nat) : Option EntityRow :=
  (kg.entities.filter (fun e => e.id == eid)).head?

/-- `add_relationship` (kg/tools/relationship.py): one membership query
`SELECT id FROM entities WHERE id IN (%s, %s)`; if it does not return
exactly two rows, fail with "Both source and target entities must
exist"; otherwise insert the relationship row (`nid` stands for the
serial id the insert generates). -/
def add_relationship (kg : KG) (source_id target_id : Nat) (type_ : String)
    (nid : Nat) : Except String (RelationshipRow × KG) :=
  let results := kg.entities.filter
    (fun e => e.id == source_id || e.id == target_id)
  if results.length ≠ 2 then
    .error "Both source and target entities must exist"
  else
    let r : RelationshipRow := ⟨nid, source_id, target_id, type_⟩
    .ok (r, { kg with relationships := kg.relationships ++ [r] })

/-- The owner argument of the property tools: exactly one of
`entity_id` / `relationship_id` (the validated case of
kg/tools/property.py, which rejects the none-given and both-given
combinations up front). -/
inductive Owner where
  | entity (id : Nat)
  | rel (id : Nat)
deriving DecidableEq

/-- The SQL condition `{owner_column} = %s` of kg/tools/property.py. -/
def ownerMatches (o : Owner) (p : PropertyRow) : Bool :=
  match o with
  | .entity i => p.entity_id == some i
  | .rel i => p.relationship_id == some i

/-- The owner-existence query of kg/tools/property.py
(`SELECT id FROM entities/relationships WHERE id = %s`). -/
def ownerExists (kg : KG) (o : Owner) : Bool :=
  match o with
  | .entity i => kg.entities.any (fun e => e.id == i)
  | .rel i => kg.relationships.any (fun r => r.id == i)

/-- The row inserted by the INSERT branch of `update_properties`
(value_type fixed to 'STRING'). -/
def mkPropRow (o : Owner) (nid : Nat) (k v : String) : PropertyRow :=
  match o with
  | .entity i => ⟨nid, some i, none, k, v, "STRING"⟩
  | .rel i => ⟨nid, none, some i, k, v, "STRING"⟩

/-- The row condition `{owner_column} = %s AND key = %s` of
kg/tools/property.py. -/
def matchesOwnerKey (o : Owner) (k : String) (p : PropertyRow) : Bool :=
  ownerMatches o p && p.key == k

/-- The property rows of a given owner and key. -/
def ownerKeyRows (kg : KG) (o : Owner) (k : String) : List PropertyRow :=
  kg.properties.filter (matchesOwnerKey o k)

/-- One key's upsert step of `update_properties`
(kg/tools/property.py): `UPDATE properties SET value = %s WHERE
{owner_column} = %s AND key = %s RETURNING ...`; if no row matched,
`INSERT` a new 'STRING' property.  The `Nat` component threads the next
serial id. -/
def upsertProperty (o : Owner) (k v : String) : KG × Nat → KG × Nat :=
  fun s =>
    let kg := s.1
    let nid := s.2
    if kg.properties.any (matchesOwnerKey o k) then
      let updated := kg.properties.map
        (fun p => if matchesOwnerKey o k p then { p with value := v } else p)
      ({ kg with properties := updated }, nid)
    else
      ({ kg with properties := kg.properties ++ [mkPropRow o nid k v] },
        nid + 1)

/-- The `for key, value in properties.items()` loop of
`update_properties`. -/
def upsertLoop (o : Owner) (pairs : List (String × String))
    (s : KG × Nat) : KG × Nat :=
  pairs.foldl (fun s kv => upsertProperty o kv.1 kv.2 s) s

/-- `update_properties` (kg/tools/property.py): reject an empty map,
verify the owner exists, then upsert each key in order. -/
def update_properties (kg : KG) (o : Owner) (pairs : List (String × String))
    (nid : Nat) : Except String (KG × Nat) :=
  if pairs.isEmpty then
    .error "No properties provided for update"
  else if !ownerExists kg o then
    .error "not found"
  else
    .ok (upsertLoop o pairs (kg, nid))

/-- No two distinct rows of the store share the same owner and key —
the well-formedness that the upsert emulation maintains but the schema
does not enforce. -/
def NoDupOwnerKeys (kg : KG) (o : Owner) : Prop :=
  kg.properties.Pairwise (fun p q =>
    ¬(ownerMatches o p = true ∧ ownerMatches o q = true ∧ p.key = q.key))

/-- Two successive `update_properties` calls with the same arguments. -/
def updateTwice (kg : KG) (o : Owner) (pairs : List (String × String))
    (nid : Nat) : Except String (KG × Nat) :=
  (update_properties kg o pairs nid).bind
    (fun s => update_properties s.1 o pairs s.2)

/-- Python truthiness of an optional integer argument (`if entity_id:`
in src/agent_kg/postgres.py): present and non-zero. -/
def truthyNat : Option Nat → Bool
  | none => false
  | some n => n ≠ 0

/-- Python truthiness of an optional string argument (`if key:`):
present and non-empty. -/
def truthyStr : Option String → Bool
  | none => false
  | some s => s ≠ ""

/-- `PostgresDB.get_properties` (src/agent_kg/postgres.py): only the
both-given combination is rejected; each truthy argument contributes an
AND-ed condition, and with no conditions the WHERE clause defaults to
`TRUE`.  The `ORDER BY key, created_at` clause is not modelled: the
rows come back in table order. -/
def get_properties_pg (kg : KG) (entity_id relationship_id : Option Nat)
    (key : Option String) : Except String (List PropertyRow) :=
  if truthyNat entity_id && truthyNat relationship_id then
    .error "Cannot provide both entity_id and relationship_id"
  else
    .ok (kg.properties.filter (fun p =>
      (!truthyNat entity_id || p.entity_id == entity_id) &&
      (!truthyNat relationship_id || p.relationship_id == relationship_id) &&
      (!truthyStr key || p.key == key.getD "")))

/-! ## The connection-resilient query executor

`PostgresDB._init_database` and `PostgresDB.execute_query` of
src/agent_kg/server.py, over an abstract backend store `α`.  The
psycopg2 connection is a `ConnState`: a closed flag plus the working
state of the open (uncommitted) transaction, if any — the connection is
created with `autocommit = False`.  Statement execution by the backend
is abstracted as a function from the working store to an outcome:
either a new store together with the cursor's row-description metadata
and rows, or a backend error together with the partially-mutated store
the failed statement left behind. -/

/-- A psycopg2-level error: `ProgrammingError`, `OperationalError`, or
anything else. -/
inductive PgErr where
  | programming (msg : String)
  | operational (msg : String)
  | other (msg : String)
deriving DecidableEq

/-- An exception raised by the executor.  Constructors raised inside an
`except` block carry the caught error, modelling Python's implicit
exception chaining. -/
inductive Err where
  | valueError (msg : String)
  | queryError (msg : String) (cause : PgErr)
  | runtimeError (msg : String) (cause : PgErr)
  | connectionError (msg : String) (cause : String)
  | runtimeWrapping (msg : String) (cause : Err)
deriving DecidableEq

/-- The error-taxonomy mapping of `execute_query`'s except block:
`ProgrammingError`/`OperationalError` become
`ValueError("Query error: …")`, everything else becomes
`RuntimeError("Unexpected database error: …")`. -/
def mapPgErr : PgErr → Err
  | .programming m => .queryError ("Query error: " ++ m) (.programming m)
  | .operational m => .queryError ("Query error: " ++ m) (.operational m)
  | .other m => .runtimeError ("Unexpected database error: " ++ m) (.other m)

/-- A live psycopg2 connection: closed flag and the working state of
the currently open transaction (`none` = no open transaction, reads
see the committed backend). -/
structure ConnState (α : Type) where
  closed : Bool
  txn : Option α
deriving DecidableEq

/-- The `PostgresDB` object: the committed backend store plus the
connection handle (`none` until a connect succeeds). -/
structure DB (α : Type) where
  backend : α
  conn : Option (ConnState α)
deriving DecidableEq

/-- The outcome of one `psycopg2.connect` attempt: success, an
`OperationalError`, or any other exception. -/
inductive Attempt where
  | success
  | opFail (msg : String)
  | otherFail (msg : String)
deriving DecidableEq

/-- `PostgresDB._init_database` (src/agent_kg/server.py) at its default
`max_retries = 3`, over an oracle giving each attempt's outcome.  An
`OperationalError` on the last attempt raises
`ConnectionError("Failed to connect after 3 attempts")`, chained (per
Python's implicit exception chaining) to the last underlying failure;
any other exception raises
`ConnectionError("Unexpected connection error: …")` immediately.  A
success yields a fresh open connection with `autocommit = False` and no
transaction in progress. -/
def initDatabase (α : Type) (attempts : Nat → Attempt) :
    Except Err (ConnState α) :=
  match attempts 0 with
  | .success => .ok ⟨false, none⟩
  | .otherFail m =>
    .error (.connectionError ("Unexpected connection error: " ++ m) m)
  | .opFail _ =>
    match attempts 1 with
    | .success => .ok ⟨false, none⟩
    | .otherFail m =>
      .error (.connectionError ("Unexpected connection error: " ++ m) m)
    | .opFail _ =>
      match attempts 2 with
      | .success => .ok ⟨false, none⟩
      | .otherFail m =>
        .error (.connectionError ("Unexpected connection error: " ++ m) m)
      | .opFail m =>
        .error (.connectionError "Failed to connect after 3 attempts" m)

/-- What the backend does with one statement: a new working store plus
the cursor's row-description metadata (column names, absent for a pure
write) and fetched rows, or an error together with the
partially-mutated store the failed statement left in the
transaction. -/
inductive StmtResult (α : Type) where
  | ok (st : α) (desc : Option (List String)) (rows : List (List String))
  | fail (st : α) (e : PgErr)

/-- A parameterized statement: its SQL text (already bound, as the
classifier only inspects text) and its backend semantics. -/
structure Stmt (α : Type) where
  text : Chars
  run : α → StmtResult α

/-- One result record: `dict(zip(columns, row))`, modelled as the
association list of (column, value) pairs. -/
def shapeRows (cols : List String) (rows : List (List String)) :
    List (List (String × String)) :=
  rows.map (fun r => cols.zip r)

/-- `PostgresDB.execute_query` (src/agent_kg/server.py).  Steps, in
source order: reject empty text; optionally enforce the read-only
classifier; inside the try block re-establish a missing or closed
connection via `_init_database` (a `ConnectionError` escaping that call
is caught by the `except Exception` clause — the rollback guard finds
no usable connection and the error, being neither `ProgrammingError`
nor `OperationalError`, is re-raised as
`RuntimeError("Unexpected database error: …")`); run the statement on
the transaction's working store; shape results from the cursor
metadata; commit unless the text classified read-only; on a backend
error, roll the transaction back (the committed backend is untouched)
and re-raise through `mapPgErr`.  The post-error connection-health
probe of the source (`self.connection.status`) is not modelled:
statements here never render the connection object unusable. -/
def executeQuery {α : Type} (attempts : Nat → Attempt) (db : DB α)
    (stmt : Stmt α) (enforceReadOnly : Bool) :
    DB α × Except Err (Option (List (List (String × String)))) :=
  if (pyStrip stmt.text).isEmpty then
    (db, .error (.valueError "Query cannot be empty"))
  else if enforceReadOnly && !is_read_only_query stmt.text then
    (db, .error (.valueError "Only SELECT queries are allowed"))
  else
    let acquire : Except Err (ConnState α) :=
      match db.conn with
      | none => initDatabase α attempts
      | some c => if c.closed then initDatabase α attempts else .ok c
    match acquire with
    | .error e =>
      (db, .error (.runtimeWrapping "Unexpected database error" e))
    | .ok c =>
      let ro := is_read_only_query stmt.text
      let working := c.txn.getD db.backend
      match stmt.run working with
      | .ok st' desc rows =>
        let results := desc.map (fun cols => shapeRows cols rows)
        if ro then
          ({ backend := db.backend,
             conn := some { closed := false, txn := some st' } }, .ok results)
        else
          ({ backend := st',
             conn := some { closed := false, txn := none } }, .ok results)
      | .fail _ e =>
        ({ backend := db.backend,
           conn := some { closed := false, txn := none } },
         .error (mapPgErr e))

/-! ## Concrete stores and statements used by counterexamples and
witnesses -/

/-- Two entities, one relationship between them, and a property owned
by that relationship. -/
def kgC1 : KG :=
  ⟨[⟨1, "person", "Alice"⟩, ⟨2, "person", "Bob"⟩],
   [⟨10, 1, 2, "knows"⟩],
   [⟨5, none, some 10, "weight", "8", "STRING"⟩]⟩

/-- A store holding a single entity. -/
def kgAliceOnly : KG := ⟨[⟨1, "person", "Alice"⟩], [], []⟩

/-- A store in which entity 1 owns two property rows with the same
key (reachable, e.g. by calling `add_property` twice with the same
key: neither the schema nor `add_property` enforces (owner, key)
uniqueness). -/
def kgDupKeys : KG :=
  ⟨[⟨1, "person", "Alice"⟩], [],
   [⟨5, some 1, none, "k", "a", "STRING"⟩,
    ⟨6, some 1, none, "k", "b", "STRING"⟩]⟩

/-- An executor state over a `Nat` backend with a live, idle
connection. -/
def dbW : DB Nat := ⟨7, some ⟨false, none⟩⟩

/-- A write statement whose execution fails with a backend
`ProgrammingError` after partially mutating the working store. -/
def stmtFail : Stmt Nat :=
  ⟨"INSERT INTO entities (type, name) VALUES (%s, %s)".toList,
   fun st => .fail (st + 1) (.programming "bad statement")⟩

/-- A SELECT statement producing one column and one row. -/
def stmtSelect : Stmt Nat :=
  ⟨"SELECT 1 as num".toList, fun st => .ok st (some ["num"]) [["1"]]⟩

/-! ## Theorems -/

/-- Claim C3: `is_read_only_query` returns true if and only if, after
removing lines whose stripped form starts with `--` and upper-casing
and joining (with whitespace normalisation) the remaining lines, the
result starts with SELECT and contains none of the substrings INSERT,
UPDATE, DELETE, DROP, CREATE, ALTER, TRUNCATE anywhere in the text. -/
theorem is_read_only_query_matches_spec (q : Chars) :
    is_read_only_query q = true ↔ ReadOnlyPerSpec q := by
  unfold is_read_only_query ReadOnlyPerSpec
  simp [List.any_eq_true]

/-- Claim C4, counterexample: `"SELECT updated FROM t"` starts with
SELECT after normalisation and contains no banned keyword as a bare
token — UPDATE occurs only inside the identifier UPDATED — yet the
classifier returns false, so under read-only enforcement the statement
is rejected.  This refutes "rejected only when it contains one of the
banned keywords as a bare token". -/
theorem read_only_rejects_nonbare_keyword :
    is_read_only_query "SELECT updated FROM t".toList = false ∧
    "SELECT".toList.isPrefixOf
      (cleanQuery "SELECT updated FROM t".toList) = true ∧
    (writeOperations.all (fun op =>
      !containsBareToken
        (cleanQuery "SELECT updated FROM t".toList) op)) = true := by
  decide

/-- Claim C4, amended: the four concrete examples classify as the spec
states, and a statement that starts with SELECT after comment
stripping and case normalisation is rejected exactly when one of the
banned keywords occurs as a substring anywhere in the normalised text
(including inside identifiers), not only as a bare token. -/
theorem read_only_rejection_by_substring :
    is_read_only_query "SELECT * FROM t".toList = true ∧
    is_read_only_query "-- comment\nSELECT 1".toList = true ∧
    is_read_only_query "INSERT INTO t VALUES (1)".toList = false ∧
    is_read_only_query "UPDATE t SET x=1".toList = false ∧
    ∀ q : Chars, "SELECT".toList.isPrefixOf (cleanQuery q) = true →
      (is_read_only_query q = false ↔
        ∃ op ∈ writeOperations, containsSub op (cleanQuery q) = true) := by
  refine ⟨by decide, by decide, by decide, by decide, ?_⟩
  intro q hq
  unfold is_read_only_query
  rw [hq]
  simp [List.any_eq_true]

/-- Claim C4, witness for the amended theorem: a SELECT whose only
occurrence of a banned keyword is inside the identifier `updated_at`
is classified not read-only. -/
theorem read_only_rejection_by_substring_witness :
    is_read_only_query "SELECT updated_at FROM t".toList = false := by
  have h := read_only_rejection_by_substring.2.2.2.2
    "SELECT updated_at FROM t".toList (by decide)
  exact h.mpr ⟨"UPDATE".toList, by decide, by decide⟩

/-- Claim C1, counterexample: in `kgC1`, relationship 10 touches
entity 1 and owns property row 5; `delete_entity kgC1 1` removes the
relationship but leaves its property row in the store, refuting
"every property owned by those removed relationships" is removed. -/
theorem delete_entity_relationship_property_survives :
    (kgC1.relationships.filter
      (fun r => r.source_id == 1 || r.target_id == 1)).map
        (fun r => r.id) = [10] ∧
    (delete_entity kgC1 1).2.relationships = [] ∧
    (delete_entity kgC1 1).2.properties =
      [⟨5, none, some 10, "weight", "8", "STRING"⟩] := by
  decide

/-- Claim C1, amended: `delete_entity` removes the entity row, every
property owned by that entity, and every relationship in which the
entity is source or target, and afterwards `get_entity` returns
not-found; properties owned by the removed relationships are NOT
removed (a property survives exactly when it was present and not
entity-owned by the deleted id). -/
theorem delete_entity_cascade_scope (kg : KG) (eid : Nat) :
    get_entity (delete_entity kg eid).2 eid = none ∧
    (∀ e : EntityRow, e ∈ (delete_entity kg eid).2.entities ↔
      e ∈ kg.entities ∧ e.id ≠ eid) ∧
    (∀ p : PropertyRow, p ∈ (delete_entity kg eid).2.properties ↔
      p ∈ kg.properties ∧ p.entity_id ≠ some eid) ∧
    (∀ r : RelationshipRow, r ∈ (delete_entity kg eid).2.relationships ↔
      r ∈ kg.relationships ∧ r.source_id ≠ eid ∧ r.target_id ≠ eid) := by
  refine ⟨?_, ?_, ?_, ?_⟩
  · unfold get_entity delete_entity
    simp [List.filter_filter]
  · intro e; unfold delete_entity; simp [List.mem_filter]
  · intro p; unfold delete_entity; simp [List.mem_filter]
  · intro r; unfold delete_entity; simp [List.mem_filter, not_or]

/-- Claim C9: `delete_entity` reports via a post-delete
`SELECT EXISTS` verification, so it returns true for every input —
including ids for which no entity existed — contradicting the
documented found/deleted boolean (its own docstring says "False if
entity not found").  Evaluated at the failing input in the
accompanying results entry: deleting id 999 from an empty store
returns true. -/
theorem delete_entity_always_reports_true (kg : KG) (eid : Nat) :
    (delete_entity kg eid).1 = true ∧
    (delete_entity (⟨[], [], []⟩ : KG) 999).1 = true := by
  constructor
  · unfold delete_entity
    simp [List.any_eq_true, List.mem_filter]
  · decide

/-- Claim C10: the postgres-module `get_properties` called with
neither owner id does not raise: the WHERE clause defaults to an
always-true condition, so every property row is returned, filtered
only by key when a truthy key is given. -/
theorem get_properties_no_owner_returns_all (kg : KG)
    (key : Option String) :
    get_properties_pg kg none none key =
      .ok (kg.properties.filter
        (fun p => !truthyStr key || p.key == key.getD "")) ∧
    get_properties_pg kg none none none = .ok kg.properties := by
  constructor
  · unfold get_properties_pg truthyNat; simp
  · unfold get_properties_pg truthyNat truthyStr; simp

/-- Helper: a list whose mapped ids are nodup has at most one element
with any given id. -/
theorem filter_id_eq_length_le_one (l : List EntityRow) (t : Nat)
    (hnd : (l.map (fun e => e.id)).Nodup) :
    (l.filter (fun e => e.id == t)).length ≤ 1 := by
  induction l with
  | nil => simp
  | cons a l ih =>
    rw [List.map_cons, List.nodup_cons] at hnd
    obtain ⟨ha, hl⟩ := hnd
    by_cases h : a.id = t
    · have hfil : l.filter (fun e => e.id == t) = [] := by
        rw [List.filter_eq_nil_iff]
        intro e he hbeq
        apply ha
        rw [List.mem_map]
        exact ⟨e, he, by simpa [h] using (beq_iff_eq.mp hbeq).symm ▸ rfl⟩
      simp [List.filter_cons, h, hfil]
    · simp only [List.filter_cons]
      rw [if_neg (by simp [h])]
      exact ih hl

/-- Claim C5: when either the source or the target id resolves to no
entity (entity ids being unique, as the serial primary key
guarantees), `add_relationship` returns the error "Both source and
target entities must exist" from its single membership query, and no
relationship row is inserted (the error return leaves the store
untouched). -/
theorem add_relationship_requires_both_entities (kg : KG)
    (source_id target_id : Nat) (type_ : String) (nid : Nat)
    (hnd : (kg.entities.map (fun e => e.id)).Nodup)
    (hmiss : (∀ e ∈ kg.entities, e.id ≠ source_id) ∨
             (∀ e ∈ kg.entities, e.id ≠ target_id)) :
    add_relationship kg source_id target_id type_ nid =
      .error "Both source and target entities must exist" := by
  unfold add_relationship
  rw [if_pos]
  rcases hmiss with hmiss | hmiss
  · have heq : kg.entities.filter
        (fun e => e.id == source_id || e.id == target_id) =
        kg.entities.filter (fun e => e.id == target_id) := by
      apply List.filter_congr
      intro e he
      simp [hmiss e he]
    rw [heq]
    have := filter_id_eq_length_le_one kg.entities target_id hnd
    omega
  · have heq : kg.entities.filter
        (fun e => e.id == source_id || e.id == target_id) =
        kg.entities.filter (fun e => e.id == source_id) := by
      apply List.filter_congr
      intro e he
      simp [hmiss e he]
    rw [heq]
    have := filter_id_eq_length_le_one kg.entities source_id hnd
    omega

/-- Claim C5, witness: with only entity 1 in the store,
`add_relationship 1 2 "knows"` fails with the specified error — the
spec's concrete scenario. -/
theorem add_relationship_requires_both_entities_witness :
    add_relationship kgAliceOnly 1 2 "knows" 1 =
      .error "Both source and target entities must exist" :=
  add_relationship_requires_both_entities kgAliceOnly 1 2 "knows" 1
    (by decide) (Or.inr (by decide))

/-- Claim C2: when the backend fails on a statement executed over a
live connection (for any exception kind), `execute_query` rolls the
transaction back and re-raises the mapped error: the returned
connection has no pending transaction — the failed statement's
partially-applied writes are discarded — and the committed backend
store is exactly the one from before the call. -/
theorem execute_query_rolls_back_on_error {α : Type}
    (attempts : Nat → Attempt) (db : DB α) (stmt : Stmt α)
    (enforce : Bool) (c : ConnState α) (st' : α) (e : PgErr)
    (hconn : db.conn = some c) (hopen : c.closed = false)
    (hne : (pyStrip stmt.text).isEmpty = false)
    (hgate : (enforce && !is_read_only_query stmt.text) = false)
    (hrun : stmt.run (c.txn.getD db.backend) = .fail st' e) :
    executeQuery attempts db stmt enforce =
      ({ backend := db.backend,
         conn := some { closed := false, txn := none } },
       .error (mapPgErr e)) := by
  unfold executeQuery
  simp [hne, hgate, hconn, hopen, hrun]

/-- Claim C2, witness: a failing INSERT over a live connection with
committed backend 7 returns the mapped query error and leaves the
backend at 7 with no open transaction. -/
theorem execute_query_rolls_back_on_error_witness :
    executeQuery (fun _ => .success) dbW stmtFail false =
      (⟨7, some ⟨false, none⟩⟩,
       .error (mapPgErr (.programming "bad statement"))) :=
  execute_query_rolls_back_on_error (fun _ => .success) dbW stmtFail false
    ⟨false, none⟩ 8 (.programming "bad statement") rfl rfl (by decide)
    rfl rfl

/-- Claim C6: when a statement succeeds over a live connection, the
result is shaped from the cursor metadata: with row-description
columns present, a list of (column, value) records in cursor order;
with no row metadata, the distinct `None` signal — which differs from
the empty list a zero-row query returns. -/
theorem execute_query_result_shaping {α : Type}
    (attempts : Nat → Attempt) (db : DB α) (stmt : Stmt α)
    (c : ConnState α) (st' : α) (desc : Option (List String))
    (rows : List (List String))
    (hconn : db.conn = some c) (hopen : c.closed = false)
    (hne : (pyStrip stmt.text).isEmpty = false)
    (hrun : stmt.run (c.txn.getD db.backend) = .ok st' desc rows) :
    (executeQuery attempts db stmt false).2 =
      .ok (desc.map (fun cols => shapeRows cols rows)) ∧
    (∀ cols, desc = some cols →
      (executeQuery attempts db stmt false).2 =
        .ok (some (rows.map (fun r => cols.zip r)))) ∧
    (desc = none → (executeQuery attempts db stmt false).2 = .ok none) ∧
    some ([] : List (List (String × String))) ≠ none := by
  have hmain : (executeQuery attempts db stmt false).2 =
      .ok (desc.map (fun cols => shapeRows cols rows)) := by
    unfold executeQuery
    simp [hne, hconn, hopen, hrun]
    by_cases hro : is_read_only_query stmt.text = true <;> simp [hro]
  refine ⟨hmain, ?_, ?_, by simp⟩
  · intro cols hcols
    rw [hmain, hcols]
    rfl
  · intro hdesc
    rw [hmain, hdesc]
    rfl

/-- Claim C6, witness: a one-row SELECT comes back as the record list
`[[("num", "1")]]`. -/
theorem execute_query_result_shaping_witness :
    (executeQuery (fun _ => .success) dbW stmtSelect false).2 =
      .ok (some [[("num", "1")]]) :=
  (execute_query_result_shaping (fun _ => .success) dbW stmtSelect
      ⟨false, none⟩ 7 (some ["num"]) [["1"]]
      rfl rfl (by decide) rfl).2.1 ["num"] rfl

/-- Helper: a successful `_init_database` always yields a fresh open
connection with no transaction in progress. -/
theorem initDatabase_ok_shape {α : Type} (a : Nat → Attempt)
    (c : ConnState α) (h : initDatabase α a = .ok c) :
    c = ⟨false, none⟩ := by
  unfold initDatabase at h
  cases h0 : a 0 <;> rw [h0] at h
  case success => exact (Except.ok.inj h).symm
  case otherFail m => simp at h
  case opFail m0 =>
    cases h1 : a 1 <;> rw [h1] at h
    case success => exact (Except.ok.inj h).symm
    case otherFail m => simp at h
    case opFail m1 =>
      cases h2 : a 2 <;> rw [h2] at h
      case success => exact (Except.ok.inj h).symm
      case otherFail m => simp at h
      case opFail m2 => simp at h

/-- Claim C7: (1) `_init_database` examines at most the first three
connection attempts — its result depends only on attempts 0, 1 and 2;
(2) when all three fail with `OperationalError`, it raises the
terminal `ConnectionError("Failed to connect after 3 attempts")`
chained to the last underlying failure; (3) `execute_query` over a
missing or closed connection behaves exactly as the same bounded-retry
connect procedure followed (on success) by execution over the fresh
connection — a reconnect failure surfacing through the catch-all as a
RuntimeError wrapping the ConnectionError. -/
theorem connection_retry_and_liveness (α : Type) :
    (∀ a b : Nat → Attempt, a 0 = b 0 → a 1 = b 1 → a 2 = b 2 →
      initDatabase α a = initDatabase α b) ∧
    (∀ (a : Nat → Attempt) (m0 m1 m2 : String),
      a 0 = .opFail m0 → a 1 = .opFail m1 → a 2 = .opFail m2 →
      initDatabase α a =
        .error (.connectionError "Failed to connect after 3 attempts" m2)) ∧
    (∀ (attempts : Nat → Attempt) (db : DB α) (stmt : Stmt α),
      (db.conn = none ∨ ∃ c, db.conn = some c ∧ c.closed = true) →
      (pyStrip stmt.text).isEmpty = false →
      executeQuery attempts db stmt false =
        match initDatabase α attempts with
        | .error e =>
          (db, .error (.runtimeWrapping "Unexpected database error" e))
        | .ok c =>
          executeQuery attempts
            { backend := db.backend, conn := some c } stmt false) := by
  refine ⟨?_, ?_, ?_⟩
  · intro a b h0 h1 h2
    unfold initDatabase
    rw [h0, h1, h2]
  · intro a m0 m1 m2 h0 h1 h2
    unfold initDatabase
    rw [h0, h1, h2]
  · intro attempts db stmt hdead hne
    have hacq : (match db.conn with
        | none => initDatabase α attempts
        | some c =>
          if c.closed then initDatabase α attempts else .ok c) =
        initDatabase α attempts := by
      rcases hdead with h | ⟨c, hc, hcl⟩
      · rw [h]
      · rw [hc]; simp [hcl]
    cases hinit : initDatabase α attempts with
    | error e =>
      unfold executeQuery
      rw [hacq, hinit]
      simp [hne]
    | ok c =>
      have hc := initDatabase_ok_shape attempts c hinit
      subst hc
      unfold executeQuery
      rw [hacq, hinit]
      simp [hne]

/-- Claim C7, witness: three operational failures yield the terminal
ConnectionError, and a call over a missing connection equals the call
over the freshly connected state. -/
theorem connection_retry_and_liveness_witness :
    (initDatabase Nat (fun _ => .opFail "db down") =
      .error (.connectionError "Failed to connect after 3 attempts"
        "db down")) ∧
    (executeQuery (fun _ => .success) (⟨7, none⟩ : DB Nat)
        stmtSelect false =
      executeQuery (fun _ => .success)
        (⟨7, some ⟨false, none⟩⟩ : DB Nat) stmtSelect false) := by
  constructor
  · exact (connection_retry_and_liveness Nat).2.1
      (fun _ => .opFail "db down") "db down" "db down" "db down"
      rfl rfl rfl
  · exact (connection_retry_and_liveness Nat).2.2 (fun _ => .success)
      ⟨7, none⟩ stmtSelect (Or.inl rfl) (by decide)

/-- Helper: updating a row's value does not change whether it matches
an owner and key. -/
theorem matchesOwnerKey_set_value (o : Owner) (k : String)
    (p : PropertyRow) (v : String) :
    matchesOwnerKey o k { p with value := v } = matchesOwnerKey o k p := by
  cases o <;> rfl

/-- Helper: filtering commutes with a map that preserves the filter
condition. -/
theorem filter_map_of_pres (l : List PropertyRow)
    (cond : PropertyRow → Bool) (f : PropertyRow → PropertyRow)
    (h : ∀ p, cond (f p) = cond p) :
    (l.map f).filter cond = (l.filter cond).map f := by
  induction l with
  | nil => rfl
  | cons a l ih =>
    simp only [List.map_cons, List.filter_cons, h a]
    cases hca : cond a <;> simp [ih]

/-- Helper: the conditional value update of the upsert's UPDATE branch
preserves every owner-and-key condition. -/
theorem upsert_cond_pres (o : Owner) (k₀ v₀ k : String)
    (p : PropertyRow) :
    matchesOwnerKey o k
      (if matchesOwnerKey o k₀ p then { p with value := v₀ } else p) =
    matchesOwnerKey o k p := by
  by_cases h : matchesOwnerKey o k₀ p = true
  · rw [if_pos h, matchesOwnerKey_set_value]
  · rw [if_neg h]

/-- Helper: a freshly inserted property row matches its own owner and
key. -/
theorem mkPropRow_matches (o : Owner) (nid : Nat) (k v : String) :
    matchesOwnerKey o k (mkPropRow o nid k v) = true := by
  cases o <;> simp [matchesOwnerKey, mkPropRow, ownerMatches]

/-- Helper: a freshly inserted property row carries its key. -/
theorem mkPropRow_key (o : Owner) (nid : Nat) (k v : String) :
    (mkPropRow o nid k v).key = k := by
  cases o <;> rfl

/-- Helper: after one upsert of key `k`, provided at most one row of
that owner and key existed, the rows of that owner and key carry
exactly the upserted value. -/
theorem upsert_same_key_le_one (o : Owner) (k v : String) (s : KG × Nat)
    (h : (ownerKeyRows s.1 o k).length ≤ 1) :
    (ownerKeyRows (upsertProperty o k v s).1 o k).map (fun p => p.value) =
      [v] := by
  unfold upsertProperty
  cases hany : s.1.properties.any (matchesOwnerKey o k)
  · have hnil : ownerKeyRows s.1 o k = [] := by
      unfold ownerKeyRows
      rw [List.filter_eq_nil_iff]
      intro p hp hcond
      rw [List.any_eq_false] at hany
      exact hany p hp hcond
    simp only [hany, Bool.false_eq_true, if_neg, ite_false]
    unfold ownerKeyRows at hnil ⊢
    simp only [List.filter_append, hnil, List.nil_append]
    simp only [List.filter_cons, mkPropRow_matches, if_true,
      List.filter_nil, List.map_cons, List.map_nil]
    cases o <;> rfl
  · simp only [hany, ite_true]
    unfold ownerKeyRows at h ⊢
    rw [filter_map_of_pres _ _ _ (upsert_cond_pres o k v k)]
    have hne : s.1.properties.filter (matchesOwnerKey o k) ≠ [] := by
      rw [List.any_eq_true] at hany
      obtain ⟨p, hp, hc⟩ := hany
      intro hcontra
      rw [List.filter_eq_nil_iff] at hcontra
      exact hcontra p hp hc
    have hlen : (s.1.properties.filter (matchesOwnerKey o k)).length = 1 := by
      have := List.length_pos.mpr hne
      omega
    obtain ⟨p, hp⟩ := List.length_eq_one.mp hlen
    rw [hp]
    have hcp : matchesOwnerKey o k p = true := by
      have hm : p ∈ s.1.properties.filter (matchesOwnerKey o k) := by
        rw [hp]; exact List.mem_singleton.mpr rfl
      exact (List.mem_filter.mp hm).2
    simp [hcp]

/-- Helper: upserting one key leaves the rows of every other key of
the same owner untouched. -/
theorem upsert_preserves_other_key (o : Owner) (k₀ v₀ k : String)
    (hk : k₀ ≠ k) (s : KG × Nat) :
    ownerKeyRows (upsertProperty o k₀ v₀ s).1 o k =
      ownerKeyRows s.1 o k := by
  unfold upsertProperty
  cases hany : s.1.properties.any (matchesOwnerKey o k₀)
  · simp only [hany, Bool.false_eq_true, ite_false]
    unfold ownerKeyRows
    simp only [List.filter_append]
    have hnil : List.filter (matchesOwnerKey o k)
        [mkPropRow o s.2 k₀ v₀] = [] := by
      simp only [List.filter_cons, List.filter_nil]
      rw [if_neg]
      simp [matchesOwnerKey, mkPropRow_key, hk]
    rw [hnil, List.append_nil]
  · simp only [hany, ite_true]
    unfold ownerKeyRows
    rw [filter_map_of_pres _ _ _ (upsert_cond_pres o k₀ v₀ k)]
    apply List.map_congr_left ?_ |>.trans (List.map_id _)
    intro p hp
    have hcp : matchesOwnerKey o k p = true := (List.mem_filter.mp hp).2
    have hnc : matchesOwnerKey o k₀ p = false := by
      unfold matchesOwnerKey at hcp ⊢
      rw [Bool.and_eq_true] at hcp
      obtain ⟨ho, hkey⟩ := hcp
      rw [ho, Bool.true_and]
      rw [beq_iff_eq] at hkey
      subst hkey
      rw [beq_eq_false_iff_ne]
      exact fun hh => hk hh.symm
    rw [if_neg (by rw [hnc]; exact Bool.false_ne_true)]
    rfl

/-- Helper: an upsert touches only the properties table. -/
theorem upsert_preserves_graph (o : Owner) (k v : String) (s : KG × Nat) :
    (upsertProperty o k v s).1.entities = s.1.entities ∧
    (upsertProperty o k v s).1.relationships = s.1.relationships := by
  unfold upsertProperty
  cases hany : s.1.properties.any (matchesOwnerKey o k) <;> simp [hany]

/-- Helper: unfolding one step of the upsert loop. -/
theorem upsertLoop_cons (o : Owner) (kv : String × String)
    (rest : List (String × String)) (s : KG × Nat) :
    upsertLoop o (kv :: rest) s =
      upsertLoop o rest (upsertProperty o kv.1 kv.2 s) := rfl

/-- Helper: the upsert loop touches only the properties table. -/
theorem upsertLoop_preserves_graph (o : Owner)
    (pairs : List (String × String)) (s : KG × Nat) :
    (upsertLoop o pairs s).1.entities = s.1.entities ∧
    (upsertLoop o pairs s).1.relationships = s.1.relationships := by
  induction pairs generalizing s with
  | nil => exact ⟨rfl, rfl⟩
  | cons kv rest ih =>
    rw [upsertLoop_cons]
    obtain ⟨h1, h2⟩ := ih (upsertProperty o kv.1 kv.2 s)
    obtain ⟨g1, g2⟩ := upsert_preserves_graph o kv.1 kv.2 s
    exact ⟨h1.trans g1, h2.trans g2⟩

/-- Helper: the upsert loop preserves owner existence. -/
theorem upsertLoop_ownerExists (o o' : Owner)
    (pairs : List (String × String)) (s : KG × Nat) :
    ownerExists (upsertLoop o pairs s).1 o' = ownerExists s.1 o' := by
  obtain ⟨h1, h2⟩ := upsertLoop_preserves_graph o pairs s
  cases o' <;> simp [ownerExists, h1, h2]

/-- Helper: the upsert loop leaves the rows of a key it never touches
unchanged. -/
theorem upsertLoop_preserves_other_key (o : Owner)
    (pairs : List (String × String)) (k : String)
    (hk : k ∉ pairs.map Prod.fst) (s : KG × Nat) :
    ownerKeyRows (upsertLoop o pairs s).1 o k = ownerKeyRows s.1 o k := by
  induction pairs generalizing s with
  | nil => rfl
  | cons kv rest ih =>
    rw [List.map_cons, List.mem_cons, not_or] at hk
    rw [upsertLoop_cons, ih hk.2]
    exact upsert_preserves_other_key o kv.1 kv.2 k
      (fun hh => hk.1 hh.symm) s

/-- Helper: after one pass of the upsert loop over distinct keys,
provided the owner had at most one row for the key beforehand, each
upserted key holds exactly one row carrying the upserted value. -/
theorem upsertLoop_sets_value (o : Owner) (pairs : List (String × String))
    (hnd : (pairs.map Prod.fst).Nodup) (s : KG × Nat)
    (kv : String × String) (hmem : kv ∈ pairs)
    (hpre : (ownerKeyRows s.1 o kv.1).length ≤ 1) :
    (ownerKeyRows (upsertLoop o pairs s).1 o kv.1).map (fun p => p.value) =
      [kv.2] := by
  induction pairs generalizing s with
  | nil => cases hmem
  | cons kv0 rest ih =>
    rw [List.map_cons, List.nodup_cons] at hnd
    rw [upsertLoop_cons]
    rcases List.mem_cons.mp hmem with heq | hmem'
    · subst heq
      rw [upsertLoop_preserves_other_key o rest kv.1 hnd.1
        (upsertProperty o kv.1 kv.2 s)]
      exact upsert_same_key_le_one o kv.1 kv.2 s hpre
    · have hk : kv0.1 ≠ kv.1 := by
        intro hh
        exact hnd.1 (hh ▸ List.mem_map_of_mem Prod.fst hmem')
      apply ih hnd.2 _ hmem'
      rw [upsert_preserves_other_key o kv0.1 kv0.2 kv.1 hk s]
      exact hpre

/-- Helper: pairwise distinctness of (owner, key) bounds every
owner-and-key row count by one. -/
theorem pairwise_filter_le_one (l : List PropertyRow) (o : Owner)
    (k : String)
    (hnd : l.Pairwise (fun p q =>
      ¬(ownerMatches o p = true ∧ ownerMatches o q = true ∧
        p.key = q.key))) :
    (l.filter (matchesOwnerKey o k)).length ≤ 1 := by
  induction l with
  | nil => simp
  | cons a l ih =>
    rw [List.pairwise_cons] at hnd
    obtain ⟨ha, hl⟩ := hnd
    rw [List.filter_cons]
    by_cases hca : matchesOwnerKey o k a = true
    · rw [if_pos hca]
      have hnil : l.filter (matchesOwnerKey o k) = [] := by
        rw [List.filter_eq_nil_iff]
        intro q hq hcq
        unfold matchesOwnerKey at hca hcq
        rw [Bool.and_eq_true, beq_iff_eq] at hca hcq
        exact ha q hq ⟨hca.1, hcq.1, hca.2.trans hcq.2.symm⟩
      rw [hnil]
      simp
    · rw [if_neg hca]
      exact ih hl

/-- Helper: `NoDupOwnerKeys` bounds every key's row count by one. -/
theorem noDup_ownerKeyRows_le_one (kg : KG) (o : Owner)
    (hnd : NoDupOwnerKeys kg o) (k : String) :
    (ownerKeyRows kg o k).length ≤ 1 :=
  pairwise_filter_le_one kg.properties o k hnd

/-- Claim C8, counterexample: in `kgDupKeys` the owner exists but
already holds two rows with key "k" (reachable, as neither
`add_property` nor the schema enforces (owner, key) uniqueness).
Calling `update_properties` twice with `{k: v}` succeeds and leaves
two rows for that key, refuting "exactly one property row per key". -/
theorem update_properties_duplicate_rows_survive :
    ownerExists kgDupKeys (.entity 1) = true ∧
    (updateTwice kgDupKeys (.entity 1) [("k", "v")] 7).map
      (fun s => (ownerKeyRows s.1 (.entity 1) "k").length) = .ok 2 := by
  decide

/-- Claim C8, amended: for an existing owner and a map with distinct
keys, provided the owner starts with at most one property row per key
(the well-formed state the upsert emulation itself maintains), calling
`update_properties` twice with the same map succeeds and leaves
exactly one property row per map key, carrying the mapped value. -/
theorem update_properties_upsert_by_key (kg : KG) (o : Owner)
    (pairs : List (String × String)) (nid : Nat)
    (hex : ownerExists kg o = true)
    (hne : pairs ≠ [])
    (hnd : (pairs.map Prod.fst).Nodup)
    (hpre : NoDupOwnerKeys kg o) :
    ∃ kg' n', updateTwice kg o pairs nid = .ok (kg', n') ∧
      ∀ kv ∈ pairs,
        (ownerKeyRows kg' o kv.1).map (fun p => p.value) = [kv.2] := by
  have hne' : pairs.isEmpty = false := by
    cases pairs with
    | nil => exact absurd rfl hne
    | cons a l => rfl
  have hfirst : update_properties kg o pairs nid =
      .ok (upsertLoop o pairs (kg, nid)) := by
    unfold update_properties
    rw [hne', hex]
    rfl
  set s1 := upsertLoop o pairs (kg, nid) with hs1
  have hex2 : ownerExists s1.1 o = true := by
    rw [hs1, upsertLoop_ownerExists]
    exact hex
  have hsecond : update_properties s1.1 o pairs s1.2 =
      .ok (upsertLoop o pairs (s1.1, s1.2)) := by
    unfold update_properties
    rw [hne', hex2]
    rfl
  refine ⟨(upsertLoop o pairs (s1.1, s1.2)).1,
          (upsertLoop o pairs (s1.1, s1.2)).2, ?_, ?_⟩
  · unfold updateTwice
    rw [hfirst]
    simp only [Except.bind]
    rw [hsecond]
  · intro kv hmem
    apply upsertLoop_sets_value o pairs hnd (s1.1, s1.2) kv hmem
    have h1 : (ownerKeyRows s1.1 o kv.1).map (fun p => p.value) =
        [kv.2] := by
      rw [hs1]
      apply upsertLoop_sets_value o pairs hnd (kg, nid) kv hmem
      exact noDup_ownerKeyRows_le_one kg o hpre kv.1
    have hlen : (ownerKeyRows s1.1 o kv.1).length = 1 := by
      have := congrArg List.length h1
      rwa [List.length_map] at this
    have hgoal : (ownerKeyRows s1.1 o kv.1).length ≤ 1 := by omega
    exact hgoal

/-- Claim C8, witness for the amended theorem: on a store with one
entity and no properties, two `update_properties` calls with
`{color: blue}` leave exactly one "color" row valued "blue". -/
theorem update_properties_upsert_by_key_witness :
    ∃ kg' n',
      updateTwice kgAliceOnly (.entity 1) [("color", "blue")] 1 =
        .ok (kg', n') ∧
      ∀ kv ∈ [("color", "blue")],
        (ownerKeyRows kg' (.entity 1) kv.1).map (fun p => p.value) =
          [kv.2] :=
  update_properties_upsert_by_key kgAliceOnly (.entity 1)
    [("color", "blue")] 1 (by decide) (by decide) (by decide)
    List.Pairwise.nil

end AgentKG

